import Mathlib

/-!
Shallow embedding of `pychess_svg.py` (ianfab/pychess-boardimage),
with theorems checking the natural-language specification against it.

Python machine details modelled explicitly:
* `int(s, 16)` is modelled by `pyIntBase16` including its acceptance of
  surrounding whitespace, a leading sign, a `0x` prefix and underscores
  between digits;
* dictionaries keyed by strings are modelled by association lists with a
  last-write-wins update (`updateMap`);
* raised exceptions are modelled by `Except PyErr`;
* float arithmetic is modelled by exact rationals; `math.hypot` (the only
  non-rational operation, used by the arrow renderer) is passed in as an
  abstract function parameter, since no claim depends on its value.
-/

namespace PychessSvg

/-- Python exception kinds observed in the source. -/
inductive PyErr
  | keyError
  | attributeError
  | parseError
  deriving DecidableEq

/-- Python dynamic values that flow through the `width`/`height` locals of
`board` (the caller passes a number, the background branch can overwrite
them with an attribute string). -/
inductive PyVal
  | intV (n : ℤ)
  | strV (s : String)
  deriving DecidableEq

/-- Python `str()` applied to a value of type `PyVal`. -/
def pyStr : PyVal → String
  | .intV n => toString n
  | .strV s => s

/-! ### Python string helpers (list-of-chars model of `str`) -/

/-- Whitespace characters stripped by Python `str.strip` / `int()`. -/
def isPyWs (c : Char) : Bool :=
  c = ' ' || c = '\t' || c = '\n' || c = '\x0d' || c = '\x0b' || c = '\x0c'

/-- Hex digit value, `none` for a non-hex-digit character. -/
def hexVal : Char → Option ℕ
  | c =>
    if '0' ≤ c ∧ c ≤ '9' then some (c.toNat - '0'.toNat)
    else if 'a' ≤ c ∧ c ≤ 'f' then some (c.toNat - 'a'.toNat + 10)
    else if 'A' ≤ c ∧ c ≤ 'F' then some (c.toNat - 'A'.toNat + 10)
    else none

/-- Hex digits with single underscores allowed between digits (continuation
after at least one digit has been read). -/
def digitsAfter (acc : ℕ) : List Char → Option ℕ
  | [] => some acc
  | '_' :: c :: cs =>
    match hexVal c with
    | some d => digitsAfter (16 * acc + d) cs
    | none => none
  | '_' :: [] => none
  | c :: cs =>
    match hexVal c with
    | some d => digitsAfter (16 * acc + d) cs
    | none => none

/-- Nonempty run of hex digits, underscores only between digits. -/
def digitsRun : List Char → Option ℕ
  | [] => none
  | '_' :: _ => none
  | c :: cs =>
    match hexVal c with
    | some d => digitsAfter d cs
    | none => none

/-- Digits of a base-16 literal, allowing an optional `0x`/`0X` marker
(and Python also allows one underscore right after the marker). -/
def hexBody : List Char → Option ℕ
  | '0' :: 'x' :: rest =>
    (match rest with
     | '_' :: rest2 => digitsRun rest2
     | _ => digitsRun rest)
  | '0' :: 'X' :: rest =>
    (match rest with
     | '_' :: rest2 => digitsRun rest2
     | _ => digitsRun rest)
  | cs => digitsRun cs

/-- Model of Python `int(s, 16)`: strip whitespace, optional sign, optional
`0x` marker, then hex digits; `none` models a raised `ValueError`. -/
def pyIntBase16 (s : String) : Option ℤ :=
  let cs := ((s.toList.dropWhile isPyWs).reverse.dropWhile isPyWs).reverse
  match cs with
  | '+' :: rest => (hexBody rest).map (fun n => (n : ℤ))
  | '-' :: rest => (hexBody rest).map (fun n => -(n : ℤ))
  | rest => (hexBody rest).map (fun n => (n : ℤ))

/-- Python `s[:i]` for `0 ≤ i`. -/
def sliceTo (s : String) (i : ℕ) : String :=
  String.mk (s.toList.take i)

/-- Python `s[i:]` for `0 ≤ i`. -/
def sliceFrom (s : String) (i : ℕ) : String :=
  String.mk (s.toList.drop i)

/-- Python `s[i]` (as a one-character string) for `0 ≤ i < len(s)`. -/
def charAt (s : String) (i : ℕ) : String :=
  String.mk ((s.toList.drop i).take 1)

/-- Boolean test that `pat` occurs at the start of `l`. -/
def startsList : List Char → List Char → Bool
  | [], _ => true
  | _ :: _, [] => false
  | a :: as, b :: bs => a = b && startsList as bs

/-- Model of Python `s.startswith(p)`. -/
def strStartsWith (s p : String) : Bool :=
  startsList p.toList s.toList

/-! ### `_color` (source lines 170-179) and `_select_color` (166-167) -/

/-- Embedding of `_color`: decode a 4- or 8-digit hex-with-alpha literal
into a color literal plus an opacity; any parse failure of the trailing
portion falls back to the whole literal with opacity 1. Mirrors the
`len(color) == 5` / `len(color) == 9` branches and the
`except ValueError: pass` of the source. -/
def _color (color : String) : String × ℚ :=
  if strStartsWith color "#" then
    if color.length = 5 then
      match pyIntBase16 (charAt color 4) with
      | some n => (sliceTo color 4, (n : ℚ) / 15)
      | none => (color, 1)
    else if color.length = 9 then
      match pyIntBase16 (sliceFrom color 7) with
      | some n => (sliceTo color 7, (n : ℚ) / 255)
      | none => (color, 1)
    else (color, 1)
  else (color, 1)

/-- The `DEFAULT_COLORS` palette (source lines 23-36), verbatim. -/
def DEFAULT_COLORS : List (String × String) :=
  [("square light", "#f0d9b5"),
   ("square dark", "#b58863"),
   ("square dark lastmove", "#aaa23b"),
   ("square light lastmove", "#cdd16a"),
   ("margin", "#212121"),
   ("inner border", "#111"),
   ("outer border", "#111"),
   ("coord", "#333333"),
   ("arrow green", "#15781B80"),
   ("arrow red", "#88202080"),
   ("arrow yellow", "#e68f00b3"),
   ("arrow blue", "#00308880")]

/-- Embedding of `_select_color`. Python evaluates `colors.get` first
(raising `AttributeError` when `colors` is `None`), then the eagerly
evaluated default argument `DEFAULT_COLORS[color]` (raising `KeyError`
whenever the slot is absent from the default palette, regardless of the
override map), then performs the `get` lookup. -/
def _select_color (colors : Option (List (String × String))) (color : String) :
    Except PyErr (String × ℚ) :=
  match colors with
  | none => .error .attributeError
  | some m =>
    match DEFAULT_COLORS.lookup color with
    | none => .error .keyError
    | some d => .ok (_color ((m.lookup color).getD d))

/-- Embedding of the color-resolution step of the arrow loop of `board`
(source lines 432-435): `_select_color(colors, " ".join(["arrow", color]))`
inside `try`, with `except KeyError` setting `opacity = 1.0` and leaving
`color` bound to the arrow's raw color name. Any other exception
propagates. -/
def arrowColorStep (colors : Option (List (String × String))) (c : String) :
    Except PyErr (String × ℚ) :=
  match _select_color colors ("arrow " ++ c) with
  | .ok r => .ok r
  | .error .keyError => .ok (c, 1)
  | .error e => .error e

/-! ### Arrow anchor coordinates (source lines 442-448) -/

/-- Pixel anchor x of an arrow endpoint (source line 445):
`outer_border + (margin if coordinates else 0) + inner_border +
(file + 0.5 if orientation else x_corr - file) * SQUARE_SIZE`
with `x_corr = board.cols - 0.5` and `SQUARE_SIZE = 45`. -/
def arrowAnchorX (outer_border inner_border margin : ℚ) (coordinates orientation : Bool)
    (cols : ℕ) (file : ℕ) : ℚ :=
  outer_border + (if coordinates then margin else 0) + inner_border +
    (if orientation then (file : ℚ) + 1/2 else ((cols : ℚ) - 1/2) - (file : ℚ)) * 45

/-- Pixel anchor y of an arrow endpoint (source line 446):
`outer_border + (margin if coordinates else 0) + inner_border +
(y_corr - rank if orientation else rank + 0.5) * SQUARE_SIZE`
with `y_corr = board.rows - 0.5`. -/
def arrowAnchorY (outer_border inner_border margin : ℚ) (coordinates orientation : Bool)
    (rows : ℕ) (rank : ℕ) : ℚ :=
  outer_border + (if coordinates then margin else 0) + inner_border +
    (if orientation then ((rows : ℚ) - 1/2) - (rank : ℚ) else (rank : ℚ) + 1/2) * 45

/-! ### More Python string helpers -/

/-- Model of Python `str.strip()` (whitespace from both ends). -/
def strStrip (s : String) : String :=
  String.mk (((s.toList.dropWhile isPyWs).reverse.dropWhile isPyWs).reverse)

/-- First index at which `needle` occurs in the second list, scanning left
to right. -/
def findSubAux (needle : List Char) : List Char → ℕ → Option ℕ
  | [], i => if startsList needle [] then some i else none
  | hay@(_ :: rest), i =>
    if startsList needle hay then some i else findSubAux needle rest (i + 1)

/-- Model of Python `s.find(sub)`: first index of occurrence, `-1` when
absent. -/
def pyFind (s sub : String) : ℤ :=
  match findSubAux sub.toList s.toList 0 with
  | some i => (i : ℤ)
  | none => -1

/-- Model of Python `sub in s`. -/
def strContains (s sub : String) : Bool :=
  (findSubAux sub.toList s.toList 0).isSome

/-- Model of Python slicing `s[a:b]` including negative indices and
clamping. -/
def pySlice (s : String) (a b : ℤ) : String :=
  let n : ℤ := s.toList.length
  let a' : ℤ := if a < 0 then max (n + a) 0 else min a n
  let b' : ℤ := if b < 0 then max (n + b) 0 else min b n
  String.mk ((s.toList.drop a'.toNat).take (b' - a').toNat)

/-- Upper-case the final character of a string (Python
`letters[-1] = letters[-1].upper()`). -/
def upperLast (s : String) : String :=
  match s.toList.reverse with
  | [] => s
  | c :: rest => String.mk ((Char.toUpper c :: rest).reverse)

/-! ### Theme registry state (the `SVG_PIECES` / `SVG_PATH_PIECES` globals) -/

/-- Cached piece fragment: the empty string cached for a sizeless asset, or
a `<g id="color-symbol-piece">` group, rescaled when the asset's stated
width differs from `SQUARE_SIZE = 45` (source lines 131-138). -/
inductive Frag
  | emptyFrag
  | group (color : String) (symbol : String) (scale : Option ℚ)
  deriving DecidableEq

/-- State of `SVG_PATH_PIECES[css]`: symbol to asset path. -/
abbrev PiecePathMap := List (String × String)

/-- State of `SVG_PIECES[css]`: symbol to cached fragment. -/
abbrev PieceFragMap := List (String × Frag)

/-- Python dict assignment `m[k] = v` on an association-list model:
last write wins, other keys untouched. -/
def updateMap {α : Type} (m : List (String × α)) (k : String) (v : α) :
    List (String × α) :=
  (m.filter (fun p => p.1 != k)) ++ [(k, v)]

theorem updateMap_idem {α : Type} (m : List (String × α)) (k : String) (v w : α) :
    updateMap (updateMap m k v) k w = updateMap m k w := by
  simp [updateMap, List.filter_append, List.filter_filter, Bool.and_self]

/-- The two module-level caches (source lines 15-16). -/
structure Caches where
  svgPieces : List (String × PieceFragMap)
  svgPathPieces : List (String × PiecePathMap)
  deriving DecidableEq

/-- File accesses performed while populating a theme. -/
inductive FileEvent
  | statFile (path : String)
  | openFile (path : String)
  deriving DecidableEq

/-- Path `os.path.join(STATIC_PATH, "piece", css + ".css")` with
`STATIC_PATH = "pychess-variants/static/"`. -/
def cssFilePath (css : String) : String :=
  "pychess-variants/static/piece/" ++ css ++ ".css"

/-! ### The stylesheet line scan (source lines 49-74) -/

/-- The `(color, symbol, url, promoted)` accumulator of the line scan. -/
structure ParseAcc where
  color : String
  symbol : String
  url : String
  promoted : Bool
  deriving DecidableEq

/-- The reset accumulator. -/
def emptyAcc : ParseAcc := ⟨"", "", "", false⟩

/-- One iteration of the `for line in css_file` loop: update the
accumulator from the line and emit a `symbol -> url` association when both
are set. -/
def cssLineStep (acc : ParseAcc) (line : String) : ParseAcc × Option (String × String) :=
  if strStrip line = "" then (acc, none)
  else
    let acc1 :=
      if strContains line "piece." then
        { acc with
          color := if strContains line "white" || strContains line "ally" then "white"
                   else "black",
          symbol := pySlice line (pyFind line "piece." + 6) (pyFind line "-piece"),
          promoted := if strContains line "promoted" then true else acc.promoted }
      else acc
    let acc2 :=
      if strContains line "url" then
        { acc1 with url := pySlice line (pyFind line "url(" + 5) (pyFind line ")" - 1) }
      else acc1
    if acc2.symbol ≠ "" ∧ acc2.url ≠ "" then
      let symbol := if acc2.color = "white" then upperLast acc2.symbol else acc2.symbol
      let symbol := if acc2.promoted then "p" ++ symbol else symbol
      (emptyAcc, some (symbol, acc2.url))
    else (acc2, none)

/-- All `symbol -> url` emissions of the line scan, in order. -/
def parseCssEmits (lines : List String) : List (String × String) :=
  (lines.foldl
    (fun (st : ParseAcc × List (String × String)) line =>
      let r := cssLineStep st.1 line
      (r.1, st.2 ++ r.2.toList))
    (emptyAcc, [])).2

/-- The `SVG_PATH_PIECES[css]` map built by the scan. -/
def parseCssMap (lines : List String) : PiecePathMap :=
  (parseCssEmits lines).foldl (fun m e => updateMap m e.1 e.2) []

/-- Embedding of `get_svg_pieces_from_css` (source lines 42-74) as a state
transformer over the two caches, also recording the file accesses it
performs. The filesystem is a map from path to the file's lines (`none`
models `os.path.isfile` returning false). Both cache entries are reset
unconditionally at entry; a missing stylesheet is logged and leaves the
theme empty. -/
def get_svg_pieces_from_css (fs : String → Option (List String)) (css : String)
    (st : Caches) : Caches × List FileEvent :=
  let st1 : Caches := ⟨updateMap st.svgPieces css [], updateMap st.svgPathPieces css []⟩
  match fs (cssFilePath css) with
  | none => (st1, [.statFile (cssFilePath css)])
  | some lines =>
      (⟨st1.svgPieces, updateMap st1.svgPathPieces css (parseCssMap lines)⟩,
       [.statFile (cssFilePath css), .openFile (cssFilePath css)])

end PychessSvg

namespace PychessSvg

/-! ### Claim C4 -/

/-- Transcription of claim C4's side condition, in the claim's own words: a
5- or 9-character hash-prefixed string whose trailing characters are all
valid hex digits. Stated from the spec, to be compared with the source's
acceptance condition. -/
def claimHexAlphaForm (s : String) : Bool :=
  strStartsWith s "#" &&
    ((s.length = 5 && (s.toList.drop 4).all (fun c => (hexVal c).isSome)) ||
     (s.length = 9 && (s.toList.drop 7).all (fun c => (hexVal c).isSome)))

/-- The acceptance condition the source actually implements for the
trailing portion: whatever Python `int(_, 16)` accepts, which also allows
surrounding whitespace and a leading sign. -/
def sourceHexAccepts (s : String) : Prop :=
  strStartsWith s "#" = true ∧
    ((s.length = 5 ∧ (pyIntBase16 (charAt s 4)).isSome = true) ∨
     (s.length = 9 ∧ (pyIntBase16 (sliceFrom s 7)).isSome = true))

instance (s : String) : Decidable (sourceHexAccepts s) := by
  unfold sourceHexAccepts; infer_instance

/-- C4 counterexample: `"#aabbcc-f"` is not a hash-prefixed literal with
valid trailing hex digits (its 8th character is a sign), so the claim says
`_color` returns it unchanged with opacity 1; but the code hands `"-f"` to
Python `int(_, 16)`, which accepts it, yielding color `"#aabbcc"` and
opacity `-15/255`. -/
theorem color_signed_hex_counterexample :
    claimHexAlphaForm "#aabbcc-f" = false ∧
    _color "#aabbcc-f" = ("#aabbcc", -15/255) ∧
    ("#aabbcc" : String) ≠ "#aabbcc-f" :=
  ⟨by decide, rfl, by decide⟩

/-- C4 (amended): `_color("#abcd") = ("#abc", 13/15)`,
`_color("#aabbccdd") = ("#aabbcc", 221/255)`, and for any literal that is
not a 5- or 9-character hash-prefixed string whose trailing portion is
accepted by Python base-16 integer parsing (which also allows surrounding
whitespace and a leading sign), `_color` returns the whole literal
unchanged with opacity exactly 1, never raising. -/
theorem color_parse_characterization :
    _color "#abcd" = ("#abc", 13/15) ∧
    _color "#aabbccdd" = ("#aabbcc", 221/255) ∧
    ∀ s : String, ¬ sourceHexAccepts s → _color s = (s, 1) := by
  refine ⟨rfl, rfl, ?_⟩
  intro s h
  unfold sourceHexAccepts at h
  by_cases h1 : strStartsWith s "#" = true
  · by_cases h5 : s.length = 5
    · cases hp : pyIntBase16 (charAt s 4) with
      | some n => exact absurd ⟨h1, Or.inl ⟨h5, by simp [hp]⟩⟩ h
      | none => simp [_color, h1, h5, hp]
    · by_cases h9 : s.length = 9
      · cases hp : pyIntBase16 (sliceFrom s 7) with
        | some n => exact absurd ⟨h1, Or.inr ⟨h9, by simp [hp]⟩⟩ h
        | none => simp [_color, h1, h5, h9, hp]
      · simp [_color, h1, h5, h9]
  · simp [_color, h1]

/-- Witness for C4's amended theorem at the concrete input `"notahex"`. -/
theorem color_parse_characterization_witness :
    ¬ sourceHexAccepts "notahex" ∧ _color "notahex" = ("notahex", 1) :=
  ⟨by decide, color_parse_characterization.2.2 "notahex" (by decide)⟩

/-! ### Claim C8 -/

/-- C8: a color slot absent from both the caller's override map and the
built-in default palette makes `_select_color` raise a `KeyError`, and the
arrow path of `board` catches exactly that failure and proceeds with the
raw color name at full opacity 1. -/
theorem select_color_unknown_slot_caught (m : List (String × String)) (c : String)
    (hm : m.lookup ("arrow " ++ c) = none)
    (hd : DEFAULT_COLORS.lookup ("arrow " ++ c) = none) :
    _select_color (some m) ("arrow " ++ c) = .error .keyError ∧
    arrowColorStep (some m) c = .ok (c, 1) := by
  have h1 : _select_color (some m) ("arrow " ++ c) = .error .keyError := by
    simp [_select_color, hd]
  exact ⟨h1, by simp [arrowColorStep, h1]⟩

/-- Witness for C8 at the slot `"arrow purple"` with an empty override
map. -/
theorem select_color_unknown_slot_caught_witness :
    (([] : List (String × String)).lookup ("arrow " ++ "purple") = none ∧
     DEFAULT_COLORS.lookup ("arrow " ++ "purple") = none) ∧
    (_select_color (some []) ("arrow " ++ "purple") = .error .keyError ∧
     arrowColorStep (some []) "purple" = .ok ("purple", 1)) :=
  ⟨⟨rfl, rfl⟩, select_color_unknown_slot_caught [] "purple" rfl rfl⟩

/-! ### Claim C6 -/

/-- C6: the pixel anchor computed with `orientation = true` for a square
equals the anchor computed with `orientation = false` for the mirrored
square `(cols - 1 - file, rows - 1 - rank)`, for any margin and border
settings. -/
theorem arrow_anchor_mirror (ob ib mg : ℚ) (co : Bool) (R C rk fl : ℕ)
    (hf : fl < C) (hr : rk < R) :
    arrowAnchorX ob ib mg co true C fl = arrowAnchorX ob ib mg co false C (C - 1 - fl) ∧
    arrowAnchorY ob ib mg co true R rk = arrowAnchorY ob ib mg co false R (R - 1 - rk) := by
  have hC : ((C - 1 - fl : ℕ) : ℚ) = (C : ℚ) - 1 - (fl : ℚ) := by
    have h2 : fl ≤ C - 1 := Nat.le_sub_one_of_lt hf
    have h1 : (1 : ℕ) ≤ C := Nat.one_le_of_lt (Nat.lt_of_le_of_lt (Nat.zero_le fl) hf)
    rw [Nat.cast_sub h2, Nat.cast_sub h1, Nat.cast_one]
  have hR : ((R - 1 - rk : ℕ) : ℚ) = (R : ℚ) - 1 - (rk : ℚ) := by
    have h2 : rk ≤ R - 1 := Nat.le_sub_one_of_lt hr
    have h1 : (1 : ℕ) ≤ R := Nat.one_le_of_lt (Nat.lt_of_le_of_lt (Nat.zero_le rk) hr)
    rw [Nat.cast_sub h2, Nat.cast_sub h1, Nat.cast_one]
  constructor
  · simp only [arrowAnchorX, if_true, Bool.false_eq_true, if_false, hC]
    ring
  · simp only [arrowAnchorY, if_true, Bool.false_eq_true, if_false, hR]
    ring

/-- Witness for C6 on an 8x8 board at file 2, rank 3, with borders and
coordinates margin. -/
theorem arrow_anchor_mirror_witness :
    (2 < 8 ∧ 3 < 8) ∧
    (arrowAnchorX 1 1 15 true true 8 2 = arrowAnchorX 1 1 15 true false 8 5 ∧
     arrowAnchorY 1 1 15 true true 8 3 = arrowAnchorY 1 1 15 true false 8 4) :=
  ⟨⟨by decide, by decide⟩, arrow_anchor_mirror 1 1 15 true 8 8 3 2 (by decide) (by decide)⟩

/-! ### Claim C3 -/

/-- C3 counterexample: populating the same theme id twice with an existing
(empty) stylesheet makes the second call perform the same file accesses as
the first — it stats and re-opens the stylesheet — contradicting "the
second call performs no asset I/O" and "without reparsing". -/
theorem populate_second_call_io_counterexample :
    (get_svg_pieces_from_css (fun _ => some []) "chess"
        (get_svg_pieces_from_css (fun _ => some []) "chess" ⟨[], []⟩).1).2 =
      [FileEvent.statFile (cssFilePath "chess"), FileEvent.openFile (cssFilePath "chess")] ∧
    (get_svg_pieces_from_css (fun _ => some []) "chess"
        (get_svg_pieces_from_css (fun _ => some []) "chess" ⟨[], []⟩).1).2 ≠ [] :=
  ⟨rfl, by decide⟩

/-- C3 (amended): population is not memoized — every call re-initializes
the theme's two cache entries and re-reads and re-parses the stylesheet,
performing the same file I/O as the first call; it is value-idempotent: a
repeated call leaves the cache state exactly as after the first call and
performs exactly the same file accesses. -/
theorem populate_value_idempotent (fs : String → Option (List String)) (css : String)
    (st : Caches) :
    (get_svg_pieces_from_css fs css (get_svg_pieces_from_css fs css st).1).1 =
      (get_svg_pieces_from_css fs css st).1 ∧
    (get_svg_pieces_from_css fs css (get_svg_pieces_from_css fs css st).1).2 =
      (get_svg_pieces_from_css fs css st).2 := by
  cases hfs : fs (cssFilePath css) <;>
    simp [get_svg_pieces_from_css, hfs, updateMap_idem]

/-! ### `read_piece_svg` (source lines 92-138) -/

/-- Externally observed properties of the asset file a symbol resolves to:
whether `os.path.isfile` succeeds, the last three characters of the
resolved path, the width stated by the asset's `viewBox` (when it has
one), and the outcome of the `svgutils.compose.SVG` probe — either an
`AttributeError` (modelled as `Except.error`) or an object whose `.width`
may be absent. -/
structure PieceAsset where
  existsOnDisk : Bool
  origFileLast3 : String
  viewBoxWidth : Option ℚ
  composeWidth : Except Unit (Option ℚ)

/-- The cached group fragment, rescaled when the stated width differs from
`SQUARE_SIZE = 45` (source lines 131-138). -/
def mkGroupFrag (colorName symbol : String) (width : ℚ) : Frag :=
  .group colorName symbol (if width ≠ 45 then some (45 / width) else none)

/-- Embedding of `read_piece_svg` for one symbol: returns the updated
`SVG_PIECES[css]` fragment cache, or `Except.error` when the source
re-raises the `AttributeError` of the compose step (source lines 116-121).
A symbol absent from the path map, a missing file, or a non-`.svg`
extension are logged-and-skipped (cache unchanged); an asset with a
`viewBox` or a stated width is cached as a group; one with neither is
cached as the empty fragment (source lines 123-129). -/
def read_piece_svg (pathMap : PiecePathMap) (fragMap : PieceFragMap)
    (colorName : String) (symbol : String) (asset : PieceAsset) :
    Except Unit PieceFragMap :=
  match pathMap.lookup symbol with
  | none => .ok fragMap
  | some _ =>
    if asset.existsOnDisk = false then .ok fragMap
    else if asset.origFileLast3 ≠ "svg" then .ok fragMap
    else
      match asset.composeWidth with
      | .error e => .error e
      | .ok w =>
        match asset.viewBoxWidth with
        | some width => .ok (updateMap fragMap symbol (mkGroupFrag colorName symbol width))
        | none =>
          match w with
          | some width => .ok (updateMap fragMap symbol (mkGroupFrag colorName symbol width))
          | none => .ok (updateMap fragMap symbol .emptyFrag)

/-! ### Claim C2 -/

/-- C2 counterexample: a piece asset that exists, has the `.svg` extension,
but whose compose probe fails with `AttributeError` (the case the source
comments as "has no width/height") makes `read_piece_svg` re-raise — so an
exception does escape population, contradicting "no exception is ever
raised out of population". -/
theorem read_piece_raise_counterexample :
    read_piece_svg [("n", "merida/bN.svg")] [] "black" "n"
      ⟨true, "svg", none, .error ()⟩ = .error () := rfl

/-- C2 (amended): when the compose probe succeeds but reports no width and
the asset declares no `viewBox` either, the symbol is cached as an empty
fragment and nothing is raised; but when the compose probe itself fails
with an `AttributeError`, `read_piece_svg` logs and re-raises it out of
population. -/
theorem read_piece_sizeless_skip_or_raise (pm : PiecePathMap) (fm : PieceFragMap)
    (colorName symbol u : String) (asset : PieceAsset)
    (hlk : pm.lookup symbol = some u)
    (hex : asset.existsOnDisk = true)
    (hsvg : asset.origFileLast3 = "svg") :
    (asset.viewBoxWidth = none → asset.composeWidth = .ok none →
      read_piece_svg pm fm colorName symbol asset = .ok (updateMap fm symbol .emptyFrag)) ∧
    (asset.composeWidth = .error () →
      read_piece_svg pm fm colorName symbol asset = .error ()) := by
  constructor
  · intro hv hc
    simp [read_piece_svg, hlk, hex, hsvg, hc, hv]
  · intro hc
    simp [read_piece_svg, hlk, hex, hsvg, hc]

/-- Witness for C2's amended theorem: a sizeless asset is cached as the
empty fragment, and a compose failure is re-raised. -/
theorem read_piece_sizeless_skip_or_raise_witness :
    ([("x", "m/x.svg")] : PiecePathMap).lookup "x" = some "m/x.svg" ∧
    read_piece_svg [("x", "m/x.svg")] [] "white" "x" ⟨true, "svg", none, .ok none⟩ =
      .ok (updateMap [] "x" .emptyFrag) ∧
    read_piece_svg [("x", "m/x.svg")] [] "white" "x" ⟨true, "svg", none, .error ()⟩ =
      .error () :=
  ⟨rfl,
   (read_piece_sizeless_skip_or_raise [("x", "m/x.svg")] [] "white" "x" "m/x.svg"
      ⟨true, "svg", none, .ok none⟩ rfl rfl rfl).1 rfl rfl,
   (read_piece_sizeless_skip_or_raise [("x", "m/x.svg")] [] "white" "x" "m/x.svg"
      ⟨true, "svg", none, .error ()⟩ rfl rfl rfl).2 rfl⟩

/-! ### `_svg` (source lines 146-159) and `piece` (182-188) -/

/-- Size-relevant attributes of the root `svg` element: the `viewBox` is
always set; `width`/`height` attributes are set only for non-`None`
arguments, via `str()`. -/
structure SvgSizeAttrs where
  viewBox : ℚ × ℚ
  width : Option String
  height : Option String
  deriving DecidableEq

/-- Embedding of `_svg`: the root element's size attributes. -/
def _svg (viewbox_x viewbox_y : ℚ) (width height : Option PyVal) : SvgSizeAttrs :=
  ⟨(viewbox_x, viewbox_y), width.map pyStr, height.map pyStr⟩

/-- Result of the single-piece renderer: the root attributes plus the
appended fragment. -/
structure PieceDoc where
  attrs : SvgSizeAttrs
  frag : Frag
  deriving DecidableEq

/-- Embedding of `piece`: `SVG_PIECES[css]` and then `[piece.symbol]` are
bare dict subscripts, each raising `KeyError` when absent; additionally
`ET.fromstring` on a cached empty fragment raises a `ParseError`. -/
def piece (svgPieces : List (String × PieceFragMap)) (css : String) (symbol : String)
    (size : Option PyVal) : Except PyErr PieceDoc :=
  match svgPieces.lookup css with
  | none => .error .keyError
  | some m =>
    match m.lookup symbol with
    | none => .error .keyError
    | some .emptyFrag => .error .parseError
    | some f => .ok ⟨_svg 45 45 size size, f⟩

/-! ### Claim C10 -/

/-- C10: `piece` raises a `KeyError` whenever the theme id was never
populated (no `SVG_PIECES` entry) or the piece's symbol is absent from the
theme's fragment cache — there is no graceful skip at this entry point. -/
theorem piece_lookup_raises (sp : List (String × PieceFragMap)) (css symbol : String)
    (size : Option PyVal)
    (h : sp.lookup css = none ∨ ∃ m, sp.lookup css = some m ∧ m.lookup symbol = none) :
    piece sp css symbol size = .error .keyError := by
  rcases h with h | ⟨m, hm, hs⟩
  · simp [piece, h]
  · simp [piece, hm, hs]

/-- Witness for C10 with an unpopulated cache. -/
theorem piece_lookup_raises_witness :
    (([] : List (String × PieceFragMap)).lookup "chess" = none) ∧
    piece [] "chess" "K" none = .error .keyError :=
  ⟨rfl, piece_lookup_raises [] "chess" "K" none (Or.inl rfl)⟩

/-! ### The background branch of `board` (source lines 228-301) -/

/-- Model of Python `s.lower()`. -/
def strLower (s : String) : String :=
  String.mk (s.toList.map Char.toLower)

/-- Model of Python `s.endswith(p)`. -/
def strEndsWith (s p : String) : Bool :=
  startsList p.toList.reverse s.toList.reverse

/-- Python truthiness of the `background_image` argument (`None` or an
empty string are falsy). -/
def bgTruthy : Option String → Bool
  | none => false
  | some s => !(s == "")

/-- Truthiness of a dynamic value bound to a local (used for
`if width and height:` on the strings read from the background's
attributes). -/
def pyTruthyOpt : Option PyVal → Bool
  | none => false
  | some (.strV s) => !(s == "")
  | some (.intV n) => !(n == 0)

/-- Path `os.path.join('pychess-variants/static/images/board', background_image)`. -/
def bgBoardPath (name : String) : String :=
  "pychess-variants/static/images/board/" ++ name

/-- Extension as computed by `os.path.splitext(...)[1]`: from the last dot,
ignoring leading dots. -/
def splitextExt (s : String) : String :=
  let rest := s.toList.dropWhile (fun c => c = '.')
  match rest.reverse.dropWhile (fun c => c ≠ '.') with
  | [] => ""
  | _ :: _ => String.mk ('.' :: (rest.reverse.takeWhile (fun c => c ≠ '.')).reverse)

/-- MIME type selection for a raster background (source lines 281-287). -/
def mimeFor (name : String) : String :=
  let ext := strLower (splitextExt name)
  if ext = ".jpg" ∨ ext = ".jpeg" then "image/jpeg"
  else if ext = ".png" then "image/png"
  else "application/octet-stream"

/-- What the code observes when it parses a vector background document:
the root tag test `bg_tree.tag.endswith('svg')`, the raw `width`/`height`
attributes, their numeric values when `float(attr.replace('px',''))`
succeeds for both, and the `viewBox` attribute — absent/empty (`none`),
present but with malformed numbers (`some none`, which raises inside the
`try`), or well-formed (`some (some (w, h))`). -/
structure BgSvgDoc where
  isSvgTag : Bool
  widthAttr : Option String
  heightAttr : Option String
  parsedWH : Option (ℚ × ℚ)
  viewBox : Option (Option (ℚ × ℚ))

/-- Result of opening the background path: a text read that parsed
(`svgText (some d)`), a text read whose `ET.fromstring` raised
(`svgText none`), or readable raster bytes. A `none` from the filesystem
models the `open` call raising. -/
inductive FsEntry
  | svgText (doc : Option BgSvgDoc)
  | binaryData

/-- Background element inserted into the document. -/
inductive BgElem
  | svgGroup (translate : ℚ × ℚ) (scale : ℚ × ℚ)
  | rawGroup
  | rasterImage (mime : String) (x y w h : ℚ)

/-- What the background branch leaves behind: the error prints, the
inserted element (if any), the values of the `width`/`height` locals after
the branch (the vector branch overwrites them with the background's
attributes), and the `render_squares` flag. -/
structure BgOutcome where
  logs : List String
  insertedBg : Option BgElem
  widthLocal : Option PyVal
  heightLocal : Option PyVal
  render_squares : Bool

/-- The log line of a failed vector background embed (source line 273). -/
def svgBgErrorLog : String := "ERROR: Could not embed SVG background"

/-- The log line of a failed raster background embed (source line 298). -/
def rasterBgErrorLog : String := "ERROR: Could not embed PNG/JPG background"

/-- The body of the `if background_image:` branch (source lines 230-298):
logs, inserted element and the two (possibly overwritten) locals. -/
def backgroundInner (name : String) (fs : String → Option FsEntry)
    (width height : Option PyVal) (margin : ℚ) (cols rows : ℕ) :
    List String × Option BgElem × Option PyVal × Option PyVal :=
  if strEndsWith (strLower name) ".svg" then
    match fs (bgBoardPath name) with
    | some (.svgText (some d)) =>
      if d.isSvgTag then
        let width' := d.widthAttr.map PyVal.strV
        let height' := d.heightAttr.map PyVal.strV
        let sized : Option (ℚ × ℚ) :=
          if pyTruthyOpt width' && pyTruthyOpt height' then
            some (d.parsedWH.getD ((cols : ℚ) * 45, (rows : ℚ) * 45))
          else
            match d.viewBox with
            | some (some wh) => some wh
            | some none => none
            | none => some ((cols : ℚ) * 45, (rows : ℚ) * 45)
        match sized with
        | none => ([svgBgErrorLog], none, width', height')
        | some wh =>
          ([], some (.svgGroup (margin, margin)
              (((cols : ℚ) * 45) / wh.1, ((rows : ℚ) * 45) / wh.2)),
            width', height')
      else ([], some .rawGroup, width, height)
    | _ => ([svgBgErrorLog], none, width, height)
  else
    match fs (bgBoardPath name) with
    | some .binaryData =>
      ([], some (.rasterImage (mimeFor name) margin margin ((cols : ℚ) * 45)
          ((rows : ℚ) * 45)), width, height)
    | _ => ([rasterBgErrorLog], none, width, height)

/-- The whole background step: the inner branch runs only for a truthy
reference, and `render_squares` is assigned after it, outside any `try`
(source lines 299-301) — false for any truthy reference, true otherwise. -/
def backgroundStep (background_image : Option String) (fs : String → Option FsEntry)
    (width height : Option PyVal) (margin : ℚ) (cols rows : ℕ) : BgOutcome :=
  if bgTruthy background_image then
    let r := backgroundInner (background_image.getD "") fs width height margin cols rows
    ⟨r.1, r.2.1, r.2.2.1, r.2.2.2, false⟩
  else ⟨[], none, width, height, true⟩

/-- The size-attribute dataflow of `board` (source lines 200-311): `_svg`
is built from the caller's `width`/`height`; the background branch may
overwrite those locals; the coordinates block then grows the viewBox and
re-tests the (possibly overwritten) locals with `is not None` before
setting the `width`/`height` attributes. -/
def boardSizeAttrs (cols rows : ℕ) (width height : Option PyVal) (coordinates : Bool)
    (background_image : Option String) (fs : String → Option FsEntry) : SvgSizeAttrs :=
  let margin : ℚ := if coordinates then 15 else 0
  let svg := _svg ((cols : ℚ) * 45) ((rows : ℚ) * 45) width height
  let bg := backgroundStep background_image fs width height margin cols rows
  let width := bg.widthLocal
  let height := bg.heightLocal
  if coordinates then
    let total_width : ℤ := (cols : ℤ) * 45 + 2 * 15
    let total_height : ℤ := (rows : ℤ) * 45 + 2 * 15
    { viewBox := ((total_width : ℚ), (total_height : ℚ)),
      width := if width.isSome then some (toString total_width) else svg.width,
      height := if height.isSome then some (toString total_height) else svg.height }
  else svg

/-! ### The arrow loop of `board` (source lines 424-497) -/

/-- Attribute values fed to `_attrs`: strings, numbers (rationals standing
for the source's floats), or the joined point list of a polygon. -/
inductive AVal
  | s (v : String)
  | q (v : ℚ)
  | pts (l : List (ℚ × ℚ))
  deriving DecidableEq

/-- Embedding of `_attrs` (source lines 162-163): drop the entries whose
value is `None`; the `str()` serialization of the kept values is left
structured. -/
def _attrs (attrs : List (String × Option AVal)) : List (String × AVal) :=
  attrs.filterMap (fun kv => kv.2.map (fun v => (kv.1, v)))

/-- Embedding of one iteration of the arrow loop, after square names have
been resolved to files/ranks and the color slot to `(color, opacity)`:
emits either a single circle (same head and tail square) or a shaft line
plus an arrowhead polygon. `hyp` abstracts `math.hypot`, the only
non-rational operation. Attribute dictionaries are written in source
order; the `opacity` entry is `opacity if opacity < 1.0 else None`. -/
def renderArrow (hyp : ℚ → ℚ → ℚ) (outer_border inner_border margin : ℚ)
    (coordinates orientation : Bool) (cols rows : ℕ) (color : String) (opacity : ℚ)
    (tail_file tail_rank head_file head_rank : ℕ) :
    List (String × List (String × AVal)) :=
  let xtail := arrowAnchorX outer_border inner_border margin coordinates orientation cols tail_file
  let ytail := arrowAnchorY outer_border inner_border margin coordinates orientation rows tail_rank
  let xhead := arrowAnchorX outer_border inner_border margin coordinates orientation cols head_file
  let yhead := arrowAnchorY outer_border inner_border margin coordinates orientation rows head_rank
  if (head_file, head_rank) = (tail_file, tail_rank) then
    [("circle", _attrs
      [("cx", some (.q xhead)),
       ("cy", some (.q yhead)),
       ("r", some (.q (45 * (93/100) / 2))),
       ("stroke-width", some (.q (45 * (7/100)))),
       ("stroke", some (.s color)),
       ("opacity", if opacity < 1 then some (.q opacity) else none),
       ("fill", some (.s "none")),
       ("class", some (.s "circle"))])]
  else
    let marker_size : ℚ := (75/100) * 45
    let marker_margin : ℚ := (1/10) * 45
    let dx := xhead - xtail
    let dy := yhead - ytail
    let hypot := hyp dx dy
    let shaft_x := xhead - dx * (marker_size + marker_margin) / hypot
    let shaft_y := yhead - dy * (marker_size + marker_margin) / hypot
    let xtip := xhead - dx * marker_margin / hypot
    let ytip := yhead - dy * marker_margin / hypot
    let marker : List (ℚ × ℚ) :=
      [(xtip, ytip),
       (shaft_x + dy * (1/2) * marker_size / hypot,
        shaft_y - dx * (1/2) * marker_size / hypot),
       (shaft_x - dy * (1/2) * marker_size / hypot,
        shaft_y + dx * (1/2) * marker_size / hypot)]
    [("line", _attrs
      [("x1", some (.q xtail)),
       ("y1", some (.q ytail)),
       ("x2", some (.q shaft_x)),
       ("y2", some (.q shaft_y)),
       ("stroke", some (.s color)),
       ("opacity", if opacity < 1 then some (.q opacity) else none),
       ("stroke-width", some (.q (45 * (2/10)))),
       ("stroke-linecap", some (.s "butt")),
       ("class", some (.s "arrow"))]),
     ("polygon", _attrs
      [("points", some (.pts marker)),
       ("fill", some (.s color)),
       ("opacity", if opacity < 1 then some (.q opacity) else none),
       ("class", some (.s "arrow"))])]

/-- Number of emitted elements carrying a given tag. -/
def countTag (tag : String) (elems : List (String × List (String × AVal))) : ℕ :=
  (elems.filter (fun e => e.1 == tag)).length

/-! ### Claim C1 -/

/-- C1 counterexample: a background reference whose file cannot be read is
logged, but `render_squares` is `false`, not `true` — the assignment at
source line 299 sits outside the `try`, so the checkerboard is not drawn
as a fallback. -/
theorem background_failure_counterexample :
    (backgroundStep (some "bg.svg") (fun _ => none) none none 15 8 8).logs =
      [svgBgErrorLog] ∧
    (backgroundStep (some "bg.svg") (fun _ => none) none none 15 8 8).render_squares ≠
      true :=
  ⟨rfl, by decide⟩

/-- C1 (amended): whenever a truthy background reference is supplied,
`render_squares` ends up `false` — on a read/parse failure the failure is
only logged and nothing is inserted, but the board squares are still not
drawn; `render_squares` stays `true` exactly when no truthy background
reference is supplied. -/
theorem background_render_squares (bg : Option String) (fs : String → Option FsEntry)
    (w h : Option PyVal) (margin : ℚ) (cols rows : ℕ) :
    (bgTruthy bg = true →
      (backgroundStep bg fs w h margin cols rows).render_squares = false) ∧
    (bgTruthy bg = false →
      (backgroundStep bg fs w h margin cols rows).render_squares = true) ∧
    (bgTruthy bg = true → fs (bgBoardPath (bg.getD "")) = none →
      (backgroundStep bg fs w h margin cols rows).insertedBg = none ∧
      (backgroundStep bg fs w h margin cols rows).logs ≠ []) := by
  refine ⟨?_, ?_, ?_⟩
  · intro hb; simp [backgroundStep, hb]
  · intro hb; simp [backgroundStep, hb]
  · intro hb hfs
    simp only [backgroundStep, hb, if_true]
    by_cases hsvg : strEndsWith (strLower (bg.getD "")) ".svg" = true <;>
      simp [backgroundInner, hsvg, hfs, svgBgErrorLog, rasterBgErrorLog]

/-- Witness for C1's amended theorem: a raster reference with an unreadable
file, and the no-background case. -/
theorem background_render_squares_witness :
    (bgTruthy (some "b.png") = true ∧ bgTruthy none = false) ∧
    (backgroundStep (some "b.png") (fun _ => none) none none 0 8 8).render_squares =
      false ∧
    (backgroundStep none (fun _ => none) none none 0 8 8).render_squares = true ∧
    ((backgroundStep (some "b.png") (fun _ => none) none none 0 8 8).insertedBg = none ∧
     (backgroundStep (some "b.png") (fun _ => none) none none 0 8 8).logs ≠ []) :=
  ⟨⟨rfl, rfl⟩,
   (background_render_squares (some "b.png") (fun _ => none) none none 0 8 8).1 rfl,
   (background_render_squares none (fun _ => none) none none 0 8 8).2.1 rfl,
   (background_render_squares (some "b.png") (fun _ => none) none none 0 8 8).2.2 rfl rfl⟩

/-! ### Claim C5 -/

/-- A vector background document carrying its own `width="100"`
`height="50"` attributes. -/
def c5BgDoc : BgSvgDoc := ⟨true, some "100", some "50", some (100, 50), none⟩

/-- A filesystem holding only that background document. -/
def c5Fs : String → Option FsEntry :=
  fun p => if p = bgBoardPath "bg.svg" then some (.svgText (some c5BgDoc)) else none

/-- C5 fails on the code: rendering with `coordinates` requested,
`width=None`, `height=None` and a vector background whose root carries
`width`/`height` attributes produces a document **with** `width`/`height`
attributes. The background branch overwrites the `width`/`height` locals
with `bg_tree.get('width')`/`get('height')` (source lines 242-243), and
the coordinates block then mistakes them for caller-requested sizes
(source lines 308-311). The viewBox is still set. -/
theorem board_width_height_attr_bug :
    (boardSizeAttrs 8 8 none none true (some "bg.svg") c5Fs).width = some "390" ∧
    (boardSizeAttrs 8 8 none none true (some "bg.svg") c5Fs).height = some "390" ∧
    (boardSizeAttrs 8 8 none none true (some "bg.svg") c5Fs).viewBox = (390, 390) ∧
    (boardSizeAttrs 8 8 none none true none c5Fs).width = none :=
  ⟨rfl, rfl, rfl, rfl⟩

/-! ### Claim C7 -/

/-- C7: per rendered arrow, a self-loop (head square equals tail square)
emits exactly one circle and no line/polygon; a directed arrow emits
exactly one line and one polygon and no circle. -/
theorem arrow_degeneracy (hyp : ℚ → ℚ → ℚ) (ob ib mg : ℚ) (co orient : Bool)
    (cols rows : ℕ) (color : String) (opacity : ℚ) (tf tr hf hr : ℕ) :
    ((hf, hr) = (tf, tr) →
      countTag "circle"
          (renderArrow hyp ob ib mg co orient cols rows color opacity tf tr hf hr) = 1 ∧
      countTag "line"
          (renderArrow hyp ob ib mg co orient cols rows color opacity tf tr hf hr) = 0 ∧
      countTag "polygon"
          (renderArrow hyp ob ib mg co orient cols rows color opacity tf tr hf hr) = 0) ∧
    ((hf, hr) ≠ (tf, tr) →
      countTag "circle"
          (renderArrow hyp ob ib mg co orient cols rows color opacity tf tr hf hr) = 0 ∧
      countTag "line"
          (renderArrow hyp ob ib mg co orient cols rows color opacity tf tr hf hr) = 1 ∧
      countTag "polygon"
          (renderArrow hyp ob ib mg co orient cols rows color opacity tf tr hf hr) = 1) := by
  constructor <;> intro h <;> simp [renderArrow, countTag, h]

/-- Witness for C7: a self-loop on a1 and a directed arrow a1 to b2. -/
theorem arrow_degeneracy_witness :
    (((0, 0) : ℕ × ℕ) = (0, 0) ∧ ((1, 1) : ℕ × ℕ) ≠ (0, 0)) ∧
    (countTag "circle" (renderArrow (fun _ _ => 1) 0 0 0 false true 8 8 "g" 1 0 0 0 0) = 1 ∧
     countTag "line" (renderArrow (fun _ _ => 1) 0 0 0 false true 8 8 "g" 1 0 0 0 0) = 0 ∧
     countTag "polygon" (renderArrow (fun _ _ => 1) 0 0 0 false true 8 8 "g" 1 0 0 0 0) = 0) ∧
    (countTag "circle" (renderArrow (fun _ _ => 1) 0 0 0 false true 8 8 "g" 1 0 0 1 1) = 0 ∧
     countTag "line" (renderArrow (fun _ _ => 1) 0 0 0 false true 8 8 "g" 1 0 0 1 1) = 1 ∧
     countTag "polygon" (renderArrow (fun _ _ => 1) 0 0 0 false true 8 8 "g" 1 0 0 1 1) = 1) :=
  ⟨⟨rfl, by decide⟩,
   (arrow_degeneracy (fun _ _ => 1) 0 0 0 false true 8 8 "g" 1 0 0 0 0).1 rfl,
   (arrow_degeneracy (fun _ _ => 1) 0 0 0 false true 8 8 "g" 1 0 0 1 1).2 (by decide)⟩

/-! ### Claim C9 -/

/-- C9: every element emitted for an arrow (circle, line or polygon) omits
the `opacity` attribute when the resolved opacity is exactly 1 and carries
it whenever the resolved opacity is strictly below 1. -/
theorem arrow_opacity_attribute (hyp : ℚ → ℚ → ℚ) (ob ib mg : ℚ) (co orient : Bool)
    (cols rows : ℕ) (color : String) (opacity : ℚ) (tf tr hf hr : ℕ) :
    ∀ e ∈ renderArrow hyp ob ib mg co orient cols rows color opacity tf tr hf hr,
      (opacity = 1 → e.2.lookup "opacity" = none) ∧
      (opacity < 1 → (e.2.lookup "opacity").isSome = true) := by
  intro e he
  by_cases hc : (hf, hr) = (tf, tr) <;>
    simp [renderArrow, hc, _attrs] at he
  · subst he
    constructor
    · intro h1; simp [List.lookup, h1]
    · intro h2; simp [List.lookup, h2]
  · rcases he with he | he <;> subst he <;> constructor <;> intro h <;>
      simp [List.lookup, h]

/-- The circle element of a concrete self-loop arrow with opacity 1/2. -/
def c9Elem : String × List (String × AVal) :=
  ("circle",
   [("cx", .q (45/2)), ("cy", .q (675/2)), ("r", .q (837/40)),
    ("stroke-width", .q (63/20)), ("stroke", .s "g"),
    ("opacity", .q (1/2)), ("fill", .s "none"), ("class", .s "circle")])

/-- Witness for C9: at opacity 1/2 the emitted circle element carries the
`opacity` attribute. -/
theorem arrow_opacity_attribute_witness :
    (c9Elem ∈ renderArrow (fun _ _ => 1) 0 0 0 false true 8 8 "g" (1/2) 0 0 0 0 ∧
     (1/2 : ℚ) < 1) ∧
    (c9Elem.2.lookup "opacity").isSome = true := by
  have hmem : c9Elem ∈ renderArrow (fun _ _ => 1) 0 0 0 false true 8 8 "g" (1/2) 0 0 0 0 := by
    simp only [renderArrow, _attrs, arrowAnchorX, arrowAnchorY, c9Elem, List.filterMap_cons,
      List.filterMap_nil, Option.map_some']
    norm_num
  exact ⟨⟨hmem, one_half_lt_one⟩,
    (arrow_opacity_attribute (fun _ _ => 1) 0 0 0 false true 8 8 "g" (1/2) 0 0 0 0
      c9Elem hmem).2 one_half_lt_one⟩

end PychessSvg
